import Mathlib

/-!
# Verification of the stagger ID3v2 codec against its specification

This file shallowly embeds the parts of the stagger source tree that the
specification's testable properties talk about, and proves or refutes each
property against that embedding.

Bytes are modelled as natural numbers (the Python code manipulates ints in
range 0..255 obtained from bytes objects); byte strings are lists of
naturals.  Python exceptions are modelled by an explicit error type
threaded through Except.  Fallible Python functions become functions into
Except PyExc.
-/

set_option maxRecDepth 4000

/-- The Python exception classes that can propagate out of the embedded
code.  The hierarchy from stagger/errors.py is flattened; subclass
relationships that matter for except-clauses are captured by the
predicates below (for example TagError subclasses ValueError, and
UnicodeEncodeError / UnicodeDecodeError subclass ValueError). -/
inductive PyExc
  | eofError
  | typeError
  | valueError
  | nameError
  | attributeError
  | indexError
  | assertionError
  | unicodeEncodeError
  | unicodeDecodeError
  | frameError
  | incompatibleFrameError
  | noTagError
  | tagError
  | notAFrameError
deriving DecidableEq

/-! ## stagger/conversion.py (release-0.4.0/stagger/conversion.py) -/

/-- Unsync.gen_decode: one pass of the de-unsynchronisation generator.
The boolean argument is the generator's sync variable (initially False);
a 0x00 byte is skipped exactly when it follows a 0xFF byte.  The warning
emitted for invalid unsynched data is side-effect-only and is not
modelled. -/
def unsyncGenDecode (sync : Bool) : List Nat → List Nat
  | [] => []
  | b :: rest =>
      if sync && b == 0 then unsyncGenDecode (b == 255) rest
      else b :: unsyncGenDecode (b == 255) rest

/-- Unsync.gen_encode: the unsynchronisation generator.  After a 0xFF byte
(sync state true), a 0x00 stuffing byte is emitted before the next byte b
whenever b == 0x00 or b & 0xE0 is nonzero; a trailing 0xFF also gets a
stuffing byte. -/
def unsyncGenEncode (sync : Bool) : List Nat → List Nat
  | [] => if sync then [0] else []
  | b :: rest =>
      if sync && (b == 0 || b &&& 0xE0 != 0) then
        0 :: b :: unsyncGenEncode (b == 255) rest
      else
        b :: unsyncGenEncode (b == 255) rest

/-- Unsync.decode. -/
def Unsync.decode (data : List Nat) : List Nat := unsyncGenDecode false data

/-- Unsync.encode. -/
def Unsync.encode (data : List Nat) : List Nat := unsyncGenEncode false data

-- Derived equality decision for Except results, so concrete runs of the
-- embedded code can be checked by decide.
deriving instance DecidableEq for Except

/-- Structural worker for syncsafeDigits; the fuel argument (always
instantiated with the value itself, which bounds the digit count) makes
the while loop structurally recursive so that concrete runs reduce. -/
def syncsafeDigitsGo : Nat → Nat → List Nat
  | 0, _ => []
  | fuel + 1, i => if i = 0 then [] else i % 128 :: syncsafeDigitsGo fuel (i / 128)

/-- The little-endian base-128 digit list produced by Syncsafe.encode's
while loop (data.append(i & 127); i >>= 7). -/
def syncsafeDigits (i : Nat) : List Nat := syncsafeDigitsGo i i

/-- Syncsafe.encode.  The width argument keeps Python's signed-int
semantics: width 0 trips the assertion, positive width is an exact length
(ValueError when the value needs more digits), and the result is padded to
abs(width) digits.  The value itself is a natural number, so the
negative-value ValueError branch of the source is unrepresentable. -/
def Syncsafe.encode (i : Nat) (width : Int) : Except PyExc (List Nat) :=
  if width = 0 then .error .assertionError
  else
    let data := syncsafeDigits i
    if 0 < width ∧ width.toNat < data.length then .error .valueError
    else .ok (data ++ List.replicate (width.natAbs - data.length) 0).reverse

/-- The accumulator loop of Syncsafe.decode: any byte above 127 raises
ValueError (the iTunes-bug guard), otherwise value := value * 128 + b. -/
def syncsafeDecodeGo (value : Nat) : List Nat → Except PyExc Nat
  | [] => .ok value
  | b :: rest =>
      if 127 < b then .error .valueError
      else syncsafeDecodeGo (value * 128 + b) rest

/-- Syncsafe.decode. -/
def Syncsafe.decode (data : List Nat) : Except PyExc Nat :=
  syncsafeDecodeGo 0 data

/-- Int8.decode: plain big-endian integer of any length. -/
def Int8.decode (data : List Nat) : Nat :=
  data.foldl (fun value b => value * 256 + b) 0

/-- Structural worker for int8Digits, fuelled like syncsafeDigitsGo. -/
def int8DigitsGo : Nat → Nat → List Nat
  | 0, _ => []
  | fuel + 1, i => if i = 0 then [] else i % 256 :: int8DigitsGo fuel (i / 256)

/-- The little-endian base-256 digit list of Int8.encode's while loop. -/
def int8Digits (i : Nat) : List Nat := int8DigitsGo i i

/-- Int8.encode (None input is treated as 0 by the source; the negative
branch is unrepresentable for naturals). -/
def Int8.encode (i : Nat) (width : Int) : Except PyExc (List Nat) :=
  if width = 0 then .error .assertionError
  else
    let data := int8Digits i
    if 0 < width ∧ width.toNat < data.length then .error .valueError
    else .ok (data ++ List.replicate (width.natAbs - data.length) 0).reverse

/-- The sync state of the unsynchronisation generator after consuming u
from initial state s. -/
def unsyncEndSync (s : Bool) (u : List Nat) : Bool :=
  u.foldl (fun _ b => b == 255) s

/-! ## No-false-sync proofs (claim C10) -/

/-- True when the list contains no 0xFF byte immediately followed by a
byte that is at least 0xE0. -/
def falseSyncFree : List Nat → Bool
  | a :: b :: rest => (!(a == 255) || decide (b < 224)) && falseSyncFree (b :: rest)
  | _ => true

/-! ## Python text codecs

The stagger source calls into Python's codec library
(str.encode / bytes.decode with iso-8859-1, utf-16, utf-16-be and utf-8).
These helpers model the library behaviour the source relies on.  Python
strings are modelled as lists of code points. -/

/-- A UTF-16 surrogate code point; Python's encoders reject these. -/
def isSurrogate (c : Nat) : Bool := 0xD800 ≤ c && c ≤ 0xDFFF

/-- str.encode('iso-8859-1'). -/
def latin1Encode (s : List Nat) : Except PyExc (List Nat) :=
  if s.all (· < 256) then .ok s else .error .unicodeEncodeError

/-- bytes.decode('iso-8859-1') never fails. -/
def latin1Decode (bs : List Nat) : List Nat := bs

/-- The 16-bit code units of one code point (surrogate pair for astral
code points). -/
def utf16Units (c : Nat) : Except PyExc (List Nat) :=
  if isSurrogate c || 0x110000 ≤ c then .error .unicodeEncodeError
  else if c < 0x10000 then .ok [c]
  else .ok [0xD800 + (c - 0x10000) / 0x400, 0xDC00 + (c - 0x10000) % 0x400]

/-- Serialize 16-bit units little-endian. -/
def unitsLE (us : List Nat) : List Nat :=
  (us.map (fun u => [u % 256, u / 256])).flatten

/-- Serialize 16-bit units big-endian. -/
def unitsBE (us : List Nat) : List Nat :=
  (us.map (fun u => [u / 256, u % 256])).flatten

/-- The UTF-8 bytes of one code point. -/
def utf8Bytes (c : Nat) : Except PyExc (List Nat) :=
  if isSurrogate c || 0x110000 ≤ c then .error .unicodeEncodeError
  else if c < 0x80 then .ok [c]
  else if c < 0x800 then .ok [0xC0 + c / 64, 0x80 + c % 64]
  else if c < 0x10000 then .ok [0xE0 + c / 4096, 0x80 + c / 64 % 64, 0x80 + c % 64]
  else .ok [0xF0 + c / 262144, 0x80 + c / 4096 % 64, 0x80 + c / 64 % 64, 0x80 + c % 64]

/-- str.encode for the four codecs of EncodedStringSpec._encodings, in
table order: 0 iso-8859-1, 1 utf-16 (with byte order mark, little-endian),
2 utf-16-be, 3 utf-8.  Any other index models the IndexError of
_encodings[enc]. -/
def pyEncode (codec : Nat) (s : List Nat) : Except PyExc (List Nat) :=
  match codec with
  | 0 => latin1Encode s
  | 1 => do
      let us ← s.mapM utf16Units
      .ok (0xFF :: 0xFE :: unitsLE us.flatten)
  | 2 => do
      let us ← s.mapM utf16Units
      .ok (unitsBE us.flatten)
  | 3 => do
      let bs ← s.mapM utf8Bytes
      .ok bs.flatten
  | _ => .error .indexError

/-- Group bytes into little-endian 16-bit units; odd length fails. -/
def bytesToUnitsLE : List Nat → Except PyExc (List Nat)
  | [] => .ok []
  | [_] => .error .unicodeDecodeError
  | b0 :: b1 :: r => do
      let us ← bytesToUnitsLE r
      .ok ((b0 + 256 * b1) :: us)

/-- Group bytes into big-endian 16-bit units; odd length fails. -/
def bytesToUnitsBE : List Nat → Except PyExc (List Nat)
  | [] => .ok []
  | [_] => .error .unicodeDecodeError
  | b0 :: b1 :: r => do
      let us ← bytesToUnitsBE r
      .ok ((256 * b0 + b1) :: us)

/-- Combine UTF-16 code units into code points, rejecting lone
surrogates. -/
def unitsToChars : List Nat → Except PyExc (List Nat)
  | [] => .ok []
  | [u] =>
      if isSurrogate u then .error .unicodeDecodeError else .ok [u]
  | u :: u2 :: r =>
      if 0xD800 ≤ u && u ≤ 0xDBFF then
        if 0xDC00 ≤ u2 && u2 ≤ 0xDFFF then do
          let rest ← unitsToChars r
          .ok ((0x10000 + (u - 0xD800) * 0x400 + (u2 - 0xDC00)) :: rest)
        else .error .unicodeDecodeError
      else if 0xDC00 ≤ u && u ≤ 0xDFFF then .error .unicodeDecodeError
      else do
        let rest ← unitsToChars (u2 :: r)
        .ok (u :: rest)

/-- bytes.decode('utf-8'). -/
def utf8Decode : List Nat → Except PyExc (List Nat)
  | [] => .ok []
  | b :: r =>
      if b < 0x80 then do
        let rest ← utf8Decode r
        .ok (b :: rest)
      else if 0xC2 ≤ b && b < 0xE0 then
        match r with
        | c :: r2 =>
            if 0x80 ≤ c && c < 0xC0 then do
              let rest ← utf8Decode r2
              .ok (((b - 0xC0) * 64 + (c - 0x80)) :: rest)
            else .error .unicodeDecodeError
        | [] => .error .unicodeDecodeError
      else if 0xE0 ≤ b && b < 0xF0 then
        match r with
        | c :: d :: r3 =>
            if (0x80 ≤ c && c < 0xC0) && (0x80 ≤ d && d < 0xC0) then
              let cp := (b - 0xE0) * 4096 + (c - 0x80) * 64 + (d - 0x80)
              if cp < 0x800 || isSurrogate cp then .error .unicodeDecodeError
              else do
                let rest ← utf8Decode r3
                .ok (cp :: rest)
            else .error .unicodeDecodeError
        | _ => .error .unicodeDecodeError
      else if 0xF0 ≤ b && b < 0xF5 then
        match r with
        | c :: d :: e :: r4 =>
            if (0x80 ≤ c && c < 0xC0) && (0x80 ≤ d && d < 0xC0) && (0x80 ≤ e && e < 0xC0) then
              let cp := (b - 0xF0) * 262144 + (c - 0x80) * 4096 + (d - 0x80) * 64 + (e - 0x80)
              if cp < 0x10000 || 0x110000 ≤ cp then .error .unicodeDecodeError
              else do
                let rest ← utf8Decode r4
                .ok (cp :: rest)
            else .error .unicodeDecodeError
        | _ => .error .unicodeDecodeError
      else .error .unicodeDecodeError

/-- bytes.decode for the four codec table entries.  Python's utf-16
decoder honours an initial byte order mark and defaults to little-endian
without one. -/
def pyDecode (codec : Nat) (bs : List Nat) : Except PyExc (List Nat)  :=
  match codec with
  | 0 => .ok (latin1Decode bs)
  | 1 =>
      (match bs with
       | 0xFF :: 0xFE :: r => (bytesToUnitsLE r).bind unitsToChars
       | 0xFE :: 0xFF :: r => (bytesToUnitsBE r).bind unitsToChars
       | r => (bytesToUnitsLE r).bind unitsToChars)
  | 2 => (bytesToUnitsBE bs).bind unitsToChars
  | 3 => utf8Decode bs
  | _ => .error .indexError

/-! ## Small string utilities used by tags.py -/

/-- Convert ASCII byte values to a Lean string (frame ids are ASCII). -/
def natsToString (l : List Nat) : String := String.mk (l.map Char.ofNat)

/-- One pattern character matches one subject character; the embedded
pattern language covers literals and the dot wildcard, which is all the
frame-order patterns of the source use. -/
def reCharMatch (p c : Char) : Bool :=
  if p == '.' then c != '\n' else p == c

/-- Fuel-driven matcher for re.match-style anchored prefix matching of
patterns built from literals, the dot, and the star.  Every recursive
call shrinks pattern-length plus subject-length, so fuel one above that
sum is always enough; fuel is only there to make the recursion
structural. -/
def reMatchGo : Nat → List Char → List Char → Bool
  | 0, _, _ => false
  | _ + 1, [], _ => true
  | fuel + 1, p :: ps, s =>
      match ps with
      | '*' :: ps2 =>
          reMatchGo fuel ps2 s ||
          (match s with
           | [] => false
           | c :: cs => reCharMatch p c && reMatchGo fuel (p :: '*' :: ps2) cs)
      | _ =>
          match s with
          | c :: cs => reCharMatch p c && reMatchGo fuel ps cs
          | [] => false

/-- re.match(pattern, s): anchored match at the start of s. -/
def reMatch (pat s : String) : Bool :=
  reMatchGo (pat.length + s.length + 1) pat.data s.data

/-- A capital letter byte. -/
def isUpperByte (b : Nat) : Bool := 65 ≤ b && b ≤ 90

/-- A capital letter or digit byte. -/
def isUpAlByte (b : Nat) : Bool := isUpperByte b || (48 ≤ b && b ≤ 57)

/-- Tag._is_frame_id: the bytes match [A-Z][A-Z0-9]{2}[A-Z0-9 ]? in full
(a single trailing space is tolerated on four-character ids). -/
def isFrameIdBytes : List Nat → Bool
  | [a, b, c] => isUpperByte a && isUpAlByte b && isUpAlByte c
  | [a, b, c, d] => isUpperByte a && isUpAlByte b && isUpAlByte c && (isUpAlByte d || d == 32)
  | _ => false

/-! ## stagger/frames.py and stagger/id3.py: the frame data model

The registry of frame classes is restricted to the classes the claims
exercise (plus the abstract text/URL/unknown/error classes every tag read
can reach); each carries exactly the attributes the source declares:
field-spec list, version set, duplicate policy, v2.2 sibling as
registered by _register_frames, and the first base class where the
conversion and ordering code consults it. -/

/-- A scalar Python value stored in a frame field or inside a sequence
field: an int, a str (code points), a bytes object, or None. -/
inductive FieldScalar
  | none
  | int (n : Nat)
  | str (cps : List Nat)
  | bytes (bs : List Nat)
deriving DecidableEq

/-- One field value of a frame, mirroring the Python value that the spec
framework stores: a scalar, or a list of scalars (the sequence specs of
the embedded frame classes only ever hold scalar elements, so list
elements are restricted to scalars). -/
inductive FieldVal
  | none
  | int (n : Nat)
  | str (cps : List Nat)
  | bytes (bs : List Nat)
  | list (xs : List FieldScalar)
deriving DecidableEq

/-- View a scalar as a field value. -/
def FieldScalar.toVal : FieldScalar → FieldVal
  | .none => .none
  | .int n => .int n
  | .str s => .str s
  | .bytes b => .bytes b

/-- View a scalar-shaped field value as a scalar. -/
def FieldVal.toScalar : FieldVal → Option FieldScalar
  | .none => some .none
  | .int n => some (.int n)
  | .str s => some (.str s)
  | .bytes b => some (.bytes b)
  | .list _ => Option.none

/-- The field-spec constructors of stagger/specs.py that the embedded
frame classes use. -/
inductive SpecDef
  | byteSpec (name : String)
  | encodingSpec (name : String)
  | integerSpec (name : String) (width : Nat)
  | binaryDataSpec (name : String)
  | simpleStringSpec (name : String) (length : Nat)
  | nullTerminatedStringSpec (name : String)
  | urlStringSpec (name : String)
  | encodedStringSpec (name : String)
  | sequenceSpec (name : String) (inner : SpecDef)
deriving DecidableEq

/-- The name attribute of a spec. -/
def SpecDef.name : SpecDef → String
  | .byteSpec n => n
  | .encodingSpec n => n
  | .integerSpec n _ => n
  | .binaryDataSpec n => n
  | .simpleStringSpec n _ => n
  | .nullTerminatedStringSpec n => n
  | .urlStringSpec n => n
  | .encodedStringSpec n => n
  | .sequenceSpec n _ => n

/-- The embedded subset of the frame-class registry. -/
inductive FrameCls
  | TIT2 | TPE1 | TXXX | APIC | COMM | PCNT | SIGN | PIC
  | TT2 | TP1 | TXX | COM | CNT
  | textFrame | urlFrame | unknownFrame | errorFrame
deriving DecidableEq

/-- type(obj).__name__, which __init__ uses as the default frameid. -/
def FrameCls.clsName : FrameCls → String
  | .TIT2 => "TIT2"
  | .TPE1 => "TPE1"
  | .TXXX => "TXXX"
  | .APIC => "APIC"
  | .COMM => "COMM"
  | .PCNT => "PCNT"
  | .SIGN => "SIGN"
  | .PIC => "PIC"
  | .TT2 => "TT2"
  | .TP1 => "TP1"
  | .TXX => "TXX"
  | .COM => "COM"
  | .CNT => "CNT"
  | .textFrame => "TextFrame"
  | .urlFrame => "URLFrame"
  | .unknownFrame => "UnknownFrame"
  | .errorFrame => "ErrorFrame"

/-- The _framespec attribute of each class (id3.py / frames.py). -/
def FrameCls.framespec : FrameCls → List SpecDef
  | .TIT2 | .TPE1 | .TT2 | .TP1 | .textFrame =>
      [.encodingSpec "encoding", .sequenceSpec "text" (.encodedStringSpec "text")]
  | .TXXX | .TXX =>
      [.encodingSpec "encoding", .encodedStringSpec "description", .encodedStringSpec "value"]
  | .APIC =>
      [.encodingSpec "encoding", .nullTerminatedStringSpec "mime", .byteSpec "type",
       .encodedStringSpec "desc", .binaryDataSpec "data"]
  | .PIC =>
      [.encodingSpec "encoding", .simpleStringSpec "format" 3, .byteSpec "type",
       .encodedStringSpec "desc", .binaryDataSpec "data"]
  | .COMM | .COM =>
      [.encodingSpec "encoding", .simpleStringSpec "lang" 3,
       .encodedStringSpec "desc", .encodedStringSpec "text"]
  | .PCNT | .CNT => [.integerSpec "count" 4]
  | .SIGN => [.byteSpec "group", .binaryDataSpec "data"]
  | .urlFrame => [.urlStringSpec "url"]
  | .unknownFrame | .errorFrame => [.binaryDataSpec "data"]

/-- The _version attribute after registration: an int becomes a singleton
list, a tuple a list, the Frame default (an empty tuple) an empty
list. -/
def FrameCls.versions : FrameCls → List Nat
  | .TIT2 | .TPE1 | .TXXX | .APIC | .COMM | .PCNT => [3, 4]
  | .SIGN => [4]
  | .PIC | .TT2 | .TP1 | .TXX | .COM | .CNT => [2]
  | .textFrame | .urlFrame | .unknownFrame | .errorFrame => []

/-- Frame._in_version for a single version argument. -/
def FrameCls.inVersion (c : FrameCls) (v : Nat) : Bool := v ∈ c.versions

/-- The _allow_duplicates attribute. -/
def FrameCls.allowDuplicates : FrameCls → Bool
  | .TXXX | .TXX | .APIC | .PIC | .COMM | .COM | .SIGN => true
  | _ => false

/-- The _v2_frame attribute installed by _register_frames on the
v2.3/v2.4 parent of each three-letter class. -/
def FrameCls.v2Frame : FrameCls → Option FrameCls
  | .TIT2 => some .TT2
  | .TPE1 => some .TP1
  | .TXXX => some .TXX
  | .COMM => some .COM
  | .PCNT => some .CNT
  | _ => none

/-- type(cls).__bases__[0], where the conversion and ordering code
consults it; none stands for the abstract Frame base itself. -/
def FrameCls.base : FrameCls → Option FrameCls
  | .TT2 => some .TIT2
  | .TP1 => some .TPE1
  | .TXX => some .TXXX
  | .COM => some .COMM
  | .CNT => some .PCNT
  | .TIT2 | .TPE1 => some .textFrame
  | _ => none

/-- Whether the class inherits TextFrame._merge (and the TextFrame
constructor), i.e. is TextFrame or a subclass. -/
def FrameCls.isTextFrame : FrameCls → Bool
  | .TIT2 | .TPE1 | .TT2 | .TP1 | .textFrame => true
  | _ => false

/-- Tag.known_frames restricted to the embedded registry. -/
def knownFrames (frameid : String) : Option FrameCls :=
  [("TIT2", FrameCls.TIT2), ("TPE1", FrameCls.TPE1), ("TXXX", FrameCls.TXXX),
   ("APIC", FrameCls.APIC), ("COMM", FrameCls.COMM), ("PCNT", FrameCls.PCNT),
   ("SIGN", FrameCls.SIGN), ("PIC", FrameCls.PIC), ("TT2", FrameCls.TT2),
   ("TP1", FrameCls.TP1), ("TXX", FrameCls.TXX), ("COM", FrameCls.COM),
   ("CNT", FrameCls.CNT)].lookup frameid

/-- A Python value stored in a dict-shaped frame-flag mapping: the trunk
code stores True or small ints (group ids) there. -/
inductive PyVal
  | pyBool (b : Bool)
  | pyInt (n : Nat)
deriving DecidableEq

/-- The runtime container held in a frame's flags attribute.  In this
snapshot Frame.__init__ stores a set (when the argument is falsy) or
whatever container was passed in: the v2.3 flag interpreter passes a
Python list of strings, while the byte-level encoders expect a dict (its
get method).  The mismatch is observable, so the container kind is part
of the model. -/
inductive PyFlags
  | emptySet
  | strList (l : List String)
  | dict (l : List (String × PyVal))
deriving DecidableEq

/-- flags if flags else set(): Python truthiness of the container. -/
def PyFlags.truthy : PyFlags → Bool
  | .emptySet => false
  | .strList l => !l.isEmpty
  | .dict l => !l.isEmpty

/-- frame.flags.get(key): only dicts have a get method; on a set or list
Python raises AttributeError. -/
def PyFlags.get : PyFlags → String → Except PyExc (Option PyVal)
  | .dict d, k => .ok (d.lookup k)
  | _, _ => .error .attributeError

/-- Wrap the string list returned by flag interpretation the way
Frame.__init__ stores it (an empty list is falsy and becomes set()). -/
def mkFlags (l : List String) : PyFlags :=
  if l.isEmpty then .emptySet else .strList l

/-- One frame object: its runtime class, frameid and flags attributes,
and the spec-named field attributes. -/
structure FrameVal where
  cls : FrameCls
  frameid : String
  flags : PyFlags
  fields : List (String × FieldVal)
deriving DecidableEq

/-- getattr(frame, name) for spec fields (none = AttributeError). -/
def getattrF (f : FrameVal) (n : String) : Option FieldVal :=
  f.fields.lookup n

/-- Raw attribute store (object.__setattr__). -/
def setField : List (String × FieldVal) → String → FieldVal → List (String × FieldVal)
  | [], n, v => [(n, v)]
  | (k, w) :: r, n, v => if k == n then (k, v) :: r else (k, w) :: setField r n v

/-- The string terminator for codec index e in
EncodedStringSpec._encodings. -/
def encTerm (e : Nat) : List Nat := if e == 1 || e == 2 then [0, 0] else [0]

/-- bytes(value) for a list argument. -/
def scalarBytesOf : List FieldScalar → Except PyExc (List Nat)
  | [] => .ok []
  | .int n :: r =>
      if n < 256 then do
        let t ← scalarBytesOf r
        .ok (n :: t)
      else .error .valueError
  | _ :: _ => .error .typeError

/-- Spec.write of every embedded spec kind (specs.py), with the frame as
context (EncodedStringSpec reads the frame's encoding attribute). -/
def specWrite (f : FrameVal) : SpecDef → FieldVal → Except PyExc (List Nat)
  | .byteSpec _, v =>
      match v with
      | .int n => if n < 256 then .ok [n] else .error .valueError
      | _ => .error .typeError
  | .encodingSpec _, v =>
      match v with
      | .int n => if n < 256 then .ok [n] else .error .valueError
      | _ => .error .typeError
  | .integerSpec _ w, v =>
      match v with
      | .int n => Int8.encode n (w : Int)
      | .none => Int8.encode 0 (w : Int)
      | _ => .error .typeError
  | .binaryDataSpec _, v =>
      match v with
      | .bytes b => .ok b
      | .int n => .ok (List.replicate n 0)
      | .list xs => scalarBytesOf xs
      | _ => .error .typeError
  | .simpleStringSpec _ len, v =>
      match v with
      | .none => .ok (List.replicate len 32)
      | .str s => do
          let d ← latin1Encode s
          if d.length ≠ len then .error .valueError else .ok d
      | _ => .error .attributeError
  | .nullTerminatedStringSpec _, v =>
      match v with
      | .str s => do
          let d ← latin1Encode s
          .ok (d ++ [0])
      | _ => .error .attributeError
  | .urlStringSpec _, v =>
      match v with
      | .str s => do
          let d ← latin1Encode s
          .ok (d ++ [0])
      | _ => .error .attributeError
  | .encodedStringSpec _, v =>
      match getattrF f "encoding" with
      | Option.none => .error .attributeError
      | some fv =>
          match fv with
          | .int e =>
              if e ≤ 3 then
                match v with
                | .str s => do
                    let bs ← pyEncode e s
                    .ok (bs ++ encTerm e)
                | _ => .error .attributeError
              else .error .indexError
          | _ => .error .typeError
  | .sequenceSpec _ inner, v =>
      match v with
      | .str s => specWrite f inner (.str s)
      | .list xs => do
          let parts ← xs.mapM (fun x => specWrite f inner x.toVal)
          .ok parts.flatten
      | .bytes bs => do
          let parts ← bs.mapM (fun b => specWrite f inner (.int b))
          .ok parts.flatten
      | _ => .error .typeError

/-- Lower-case an ASCII code point. -/
def lowerCp (c : Nat) : Nat := if 65 ≤ c && c ≤ 90 then c + 32 else c

/-- value.lower().replace("-", "") as EncodingSpec.validate performs. -/
def normalizeCodecName (s : List Nat) : List Nat :=
  (s.map lowerCp).filter (· ≠ 45)

/-- The loop over EncodedStringSpec._encodings comparing normalized codec
names (iso-8859-1, utf-16, utf-16-be, utf-8 in table order). -/
def codecNameIndex (s : List Nat) : Option Nat :=
  let t := normalizeCodecName s
  if t = [105, 115, 111, 56, 56, 53, 57, 49] then some 0
  else if t = [117, 116, 102, 49, 54] then some 1
  else if t = [117, 116, 102, 49, 54, 98, 101] then some 2
  else if t = [117, 116, 102, 56] then some 3
  else Option.none

/-- Spec.validate of every embedded spec kind (specs.py). -/
def specValidate (f : FrameVal) : SpecDef → FieldVal → Except PyExc FieldVal
  | .byteSpec _, v =>
      match v with
      | .int n => if n < 256 then .ok (.int n) else .error .valueError
      | _ => .error .typeError
  | .encodingSpec _, v =>
      match v with
      | .str s =>
          (match codecNameIndex s with
           | some i => .ok (.int i)
           | Option.none => .error .typeError)
      | .int n => if n ≤ 3 then .ok (.int n) else .error .valueError
      | _ => .error .typeError
  | .integerSpec _ w, v =>
      match v with
      | .int n => if n < 2 ^ (8 * w) then .ok (.int n) else .error .valueError
      | _ => .error .typeError
  | .binaryDataSpec _, v =>
      match v with
      | .bytes b => .ok (.bytes b)
      | _ => .error .typeError
  | .simpleStringSpec _ len, v =>
      match v with
      | .str s =>
          if s.length ≠ len then .error .valueError
          else if s.all (· < 256) then .ok (.str s)
          else .error .unicodeEncodeError
      | _ => .error .typeError
  | .nullTerminatedStringSpec _, v =>
      match v with
      | .str s => if s.all (· < 256) then .ok (.str s) else .error .unicodeEncodeError
      | _ => .error .typeError
  | .urlStringSpec _, v =>
      match v with
      | .str s => if s.all (· < 256) then .ok (.str s) else .error .unicodeEncodeError
      | _ => .error .typeError
  | .encodedStringSpec n, v =>
      match v with
      | .str s => do
          let _ ← specWrite f (.encodedStringSpec n) (.str s)
          .ok (.str s)
      | _ => .error .typeError
  | .sequenceSpec _ inner, v =>
      match v with
      | .str s => do
          let w ← specValidate f inner (.str s)
          match w.toScalar with
          | some sc => .ok (.list [sc])
          | Option.none => .error .typeError
      | .list xs => do
          let ws ← xs.mapM (fun x => do
            let w ← specValidate f inner x.toVal
            match w.toScalar with
            | some sc => pure sc
            | Option.none => Except.error PyExc.typeError)
          .ok (.list ws)
      | .bytes bs => do
          let ws ← bs.mapM (fun b => do
            let w ← specValidate f inner (.int b)
            match w.toScalar with
            | some sc => pure sc
            | Option.none => Except.error PyExc.typeError)
          .ok (.list ws)
      | _ => .error .typeError

/-- Frame.__setattr__: validate against the first framespec entry of the
same name, then store. -/
def setattrV (f : FrameVal) (name : String) (v : FieldVal) : Except PyExc FrameVal :=
  match f.cls.framespec.find? (fun sp => sp.name == name) with
  | some sp => do
      let v' ← specValidate f sp v
      .ok { f with fields := setField f.fields name v' }
  | Option.none => .ok { f with fields := setField f.fields name v }

/-- Frame.__init__: pick the frameid and flags attributes, then assign
every spec field from kwargs (defaulting to None), each assignment
passing through __setattr__ validation.  In this snapshot the validators
reject None, so construction with a missing field kwarg raises
TypeError. -/
def frameInit (cls : FrameCls) (frameid : Option String) (flags : Option PyFlags)
    (kwargs : List (String × FieldVal)) : Except PyExc FrameVal :=
  let fl := match flags with
            | some g => if g.truthy then g else .emptySet
            | Option.none => .emptySet
  let f0 : FrameVal := { cls := cls, frameid := frameid.getD cls.clsName, flags := fl, fields := [] }
  cls.framespec.foldlM (fun f sp => setattrV f sp.name ((kwargs.lookup sp.name).getD .none)) f0

/-- bytes.partition(b"\x00"): the part before the first zero byte and the
part after it (everything consumed when no zero is present, matching
partition's empty separator-and-tail result). -/
def splitAtZero : List Nat → (List Nat × List Nat)
  | [] => ([], [])
  | b :: r =>
      if b == 0 then ([], r)
      else
        let p := splitAtZero r
        (b :: p.1, p.2)

/-- The terminator scan of EncodedStringSpec.read for two-byte
terminators: the first even index at which 00 00 occurs, or the data
length when absent. -/
def findTerm2 : List Nat → Nat
  | 0 :: 0 :: _ => 0
  | _ :: _ :: r => 2 + findTerm2 r
  | r => r.length

/-- The while-data loop of SequenceSpec.read, parameterized by the inner
reader.  The fuel is the length of the remaining data plus one; every
inner spec of the embedded registry consumes at least one byte from
nonempty data, so the zero-fuel branch is unreachable (the Python loop
would not terminate there). -/
def seqLoop (reader : List Nat → Except PyExc (FieldVal × List Nat)) :
    Nat → List Nat → Except PyExc (List FieldScalar × List Nat)
  | 0, _ => .error .assertionError
  | fuel + 1, data =>
      if data.isEmpty then .ok ([], data)
      else do
        let (elem, rest) ← reader data
        match elem.toScalar with
        | some sc => do
            let (seq, rest2) ← seqLoop reader fuel rest
            .ok (sc :: seq, rest2)
        | Option.none => .error .typeError

/-- Spec.read of every embedded spec kind (specs.py). -/
def specRead (f : FrameVal) : SpecDef → List Nat → Except PyExc (FieldVal × List Nat)
  | .byteSpec _, data =>
      match data with
      | [] => .error .eofError
      | b :: r => .ok (.int b, r)
  | .encodingSpec _, data =>
      match data with
      | [] => .error .eofError
      | b :: r => if b &&& 0xFC ≠ 0 then .error .frameError else .ok (.int b, r)
  | .integerSpec _ w, data =>
      if data.length < w then .error .eofError
      else .ok (.int (Int8.decode (data.take w)), data.drop w)
  | .binaryDataSpec _, data => .ok (.bytes data, [])
  | .simpleStringSpec _ len, data =>
      .ok (.str (latin1Decode (data.take len)), data.drop len)
  | .nullTerminatedStringSpec _, data =>
      let p := splitAtZero data
      .ok (.str (latin1Decode p.1), p.2)
  | .urlStringSpec _, data =>
      let p := splitAtZero data
      if p.1.isEmpty && !p.2.isEmpty then
        let p2 := splitAtZero p.2
        .ok (.str (latin1Decode p2.1), p2.2)
      else .ok (.str (latin1Decode p.1), p.2)
  | .encodedStringSpec _, data =>
      match getattrF f "encoding" with
      | Option.none => .error .attributeError
      | some fv =>
          match fv with
          | .int e =>
              if e == 0 || e == 3 then
                let p := splitAtZero data
                do
                  let s ← pyDecode e p.1
                  .ok (.str s, p.2)
              else if e == 1 || e == 2 then
                let idx := findTerm2 data
                if idx % 2 == 1 then .error .eofError
                else do
                  let s ← pyDecode e (data.take idx)
                  .ok (.str s, data.drop (idx + 2))
              else .error .indexError
          | _ => .error .typeError
  | .sequenceSpec _ inner, data => do
      let (seq, rest) ← seqLoop (fun d => specRead f inner d) (data.length + 1) data
      .ok (.list seq, rest)

/-- Frame._from_data: construct the frame (every field defaulting to
None), then decode each framespec field in order, assigning through
__setattr__.  No embedded spec is marked optional, so EOFError always
propagates. -/
def fromData (cls : FrameCls) (frameid : String) (data : List Nat)
    (flags : Option PyFlags) : Except PyExc FrameVal := do
  let f ← frameInit cls (some frameid) flags []
  let st ← cls.framespec.foldlM
    (fun (st : FrameVal × List Nat) sp => do
      let (val, rest) ← specRead st.1 sp st.2
      let f' ← setattrV st.1 sp.name val
      .ok (f', rest))
    (f, data)
  .ok st.1

/-- ErrorFrame.__init__(frameid, data, exception): Frame.__init__ runs
first with flags={} and no field kwargs, then the data attribute is
assigned (the triggering exception attribute is set last; construction in
this snapshot fails during Frame.__init__, before either). -/
def errorFrameInit (frameid : String) (data : List Nat) : Except PyExc FrameVal := do
  let f ← frameInit .errorFrame (some frameid) (some (.dict [])) []
  setattrV f "data" (.bytes data)

/-- The code points of an ASCII Lean string (str.encode("ASCII") for the
frame ids, which are ASCII by construction). -/
def strCps (s : String) : List Nat := s.data.map Char.toNat

/-- Upper-case an ASCII code point. -/
def upperCp (c : Nat) : Nat := if 97 ≤ c && c ≤ 122 then c - 32 else c

/-- The enc accumulator of TextFrame._merge: enc starts as None, takes
the first frame's encoding, and collapses to False on disagreement (a
None encoding on the first frame leaves the accumulator in its initial
None state, as in the source).  The flag component records the False
state. -/
def textMergeEncStep : (Bool × FieldVal) → FieldVal → (Bool × FieldVal)
  | (true, e), _ => (true, e)
  | (false, .none), fenc => (false, fenc)
  | (false, e), fenc => if e == fenc then (false, e) else (true, e)

/-- res.text.extend(f.text): the text list of a frame (empty when the
attribute is not a list). -/
def fieldTextList (f : FrameVal) : List FieldScalar :=
  match getattrF f "text" with
  | some (.list xs) => xs
  | _ => []

/-- TextFrame._merge.  A single frame is returned unchanged; otherwise a
fresh frame is constructed with cls(text=[]) — which in this snapshot
raises TypeError, because Frame.__init__ validates the defaulted None
encoding — the texts are concatenated by in-place list mutation
(bypassing __setattr__), and the agreed encoding, if any, is assigned
through __setattr__. -/
def textMerge (cls : FrameCls) (frames : List FrameVal) :
    Except PyExc (List FrameVal × List String) :=
  if frames.length == 1 then .ok (frames, [])
  else do
    let res ← frameInit cls Option.none Option.none [("text", .list [])]
    let encSt := frames.foldl
      (fun st f => textMergeEncStep st ((getattrF f "encoding").getD .none)) (false, FieldVal.none)
    let allText := (frames.map fieldTextList).flatten
    let res := { res with fields := setField res.fields "text" (.list allText) }
    if !encSt.1 then do
      let res ← setattrV res "encoding" encSt.2
      .ok ([res], [])
    else .ok ([res], [])

/-- Frame._merge: duplicates-allowed classes keep every frame; otherwise
only the last instance survives, with a duplicate warning when there was
more than one. -/
def baseMerge (frames : List FrameVal) : List FrameVal × List String :=
  match frames with
  | [] => ([], [])
  | f :: _ =>
      if f.cls.allowDuplicates then (frames, [])
      else if frames.length > 1 then
        (frames.drop (frames.length - 1),
         ["Frame " ++ f.frameid ++ " duplicated, only the last instance is kept"])
      else (frames, [])

/-- d[frameid][0]._merge(d[frameid]): classmethod dispatch on the first
frame's class (TextFrame subclasses override _merge). -/
def mergeDispatch (frames : List FrameVal) : Except PyExc (List FrameVal × List String) :=
  match frames with
  | [] => .ok ([], [])
  | f :: _ =>
      if f.cls.isTextFrame then textMerge f.cls frames
      else .ok (baseMerge frames)

/-- Frame._from_frame: copy construction into a sibling class.  The
source asserts framespec equality, constructs the new frame with the old
flags and no field kwargs (TypeError in this snapshot), then copies every
field through __setattr__. -/
def fromFrame (cls : FrameCls) (frame : FrameVal) : Except PyExc FrameVal := do
  if frame.cls.framespec ≠ cls.framespec then throw .assertionError
  let new ← frameInit cls Option.none (some frame.flags) []
  cls.framespec.foldlM
    (fun nf sp => setattrV nf sp.name ((getattrF frame sp.name).getD .none)) new

/-- Frame._to_version: identity when the class is already valid for the
target; the registered v2.2 sibling for downgrades to version 2; the
structural parent for upgrades of v2.2 frames; IncompatibleFrameError
otherwise. -/
def frameToVersion (f : FrameVal) (version : Nat) : Except PyExc FrameVal :=
  if f.cls.inVersion version then .ok f
  else
    match (if version == 2 then f.cls.v2Frame else Option.none) with
    | some c2 => fromFrame c2 f
    | Option.none =>
        if f.cls.inVersion 2 then
          match f.cls.base with
          | some b =>
              if b.inVersion version then fromFrame b f
              else .error .incompatibleFrameError
          | Option.none => .error .incompatibleFrameError
        else .error .incompatibleFrameError

/-- APIC._to_version: identity into versions 3 and 4; a semantic
transform into PIC for version 2, rejecting image formats without a
three-letter code. -/
def apicToVersion (f : FrameVal) (version : Nat) : Except PyExc FrameVal :=
  if version == 3 || version == 4 then .ok f
  else
    match getattrF f "mime" with
    | some (.str s) =>
        let m := s.map lowerCp
        if m = strCps "image/jpeg" || m = strCps "image/jpg" || m = strCps "image/png" then
          frameInit .PIC Option.none Option.none
            [("format", .str (if m = strCps "image/png" then strCps "PNG" else strCps "JPG")),
             ("type", (getattrF f "type").getD .none),
             ("desc", (getattrF f "desc").getD .none),
             ("data", (getattrF f "data").getD .none)]
        else .error .valueError
    | _ => .error .attributeError

/-- PIC._to_version: identity into version 2; the inverse transform into
APIC otherwise.  For formats other than PNG and JPG the source falls back
to imghdr.what(io.StringIO(...)), and id3.py does not import io, so that
branch raises NameError. -/
def picToVersion (f : FrameVal) (version : Nat) : Except PyExc FrameVal :=
  if version == 2 then .ok f
  else if version == 3 || version == 4 then
    match getattrF f "format" with
    | some (.str s) =>
        let fm := s.map upperCp
        if fm = strCps "PNG" then
          frameInit .APIC Option.none Option.none
            [("mime", .str (strCps "image/png")),
             ("type", (getattrF f "type").getD .none),
             ("desc", (getattrF f "desc").getD .none),
             ("data", (getattrF f "data").getD .none)]
        else if fm = strCps "JPG" then
          frameInit .APIC Option.none Option.none
            [("mime", .str (strCps "image/jpeg")),
             ("type", (getattrF f "type").getD .none),
             ("desc", (getattrF f "desc").getD .none),
             ("data", (getattrF f "data").getD .none)]
        else .error .nameError
    | _ => .error .attributeError
  else .error .assertionError

/-- frame._to_version(version) with the overrides of APIC and PIC
dispatched by runtime class. -/
def toVersion (f : FrameVal) (version : Nat) : Except PyExc FrameVal :=
  match f.cls with
  | .APIC => apicToVersion f version
  | .PIC => picToVersion f version
  | _ => frameToVersion f version

/-- A frame-order pattern: a frame class or a frame-id text pattern. -/
inductive FOPattern
  | cls (c : FrameCls)
  | re (pat : String)
deriving DecidableEq

/-- The FrameOrder policy object: indexed text patterns, indexed class
keys, and the trailing catch-all key. -/
structure FrameOrder where
  re_keys : List (String × Nat)
  frame_keys : List (FrameCls × Nat)
  unknown_key : Nat
deriving DecidableEq

/-- FrameOrder.__init__: split the indexed patterns into text patterns
and class keys; the catch-all key is one past the last pattern index.
With no patterns at all the source's loop variable is unbound and the
unknown-key computation raises NameError. -/
def mkFrameOrder (patterns : List FOPattern) : Except PyExc FrameOrder :=
  if patterns.isEmpty then .error .nameError
  else
    let indexed := patterns.enum
    .ok { re_keys := indexed.filterMap
            (fun p => match p.2 with | .re s => some (s, p.1) | _ => Option.none),
          frame_keys := indexed.filterMap
            (fun p => match p.2 with | .cls c => some (c, p.1) | _ => Option.none),
          unknown_key := patterns.length }

/-- FrameOrder.key: exact class match first, then the v2.2 frame's
structural parent, then the first matching text pattern, else the
catch-all bucket. -/
def FrameOrder.key (fo : FrameOrder) (f : FrameVal) : Nat :=
  match fo.frame_keys.lookup f.cls with
  | some k => k
  | Option.none =>
      match (if f.cls.inVersion 2 then f.cls.base.bind (fun b => fo.frame_keys.lookup b)
             else Option.none) with
      | some k => k
      | Option.none =>
          match fo.re_keys.find? (fun p => reMatch p.1 f.frameid) with
          | some p => p.2
          | Option.none => fo.unknown_key

/-- Stable insertion into a key-sorted list: the new element (which comes
earlier in the original order) is placed before any element of equal
key. -/
def insertSorted (key : FrameVal → Nat) (x : FrameVal) : List FrameVal → List FrameVal
  | [] => [x]
  | y :: r => if key y < key x then y :: insertSorted key x r else x :: y :: r

/-- list.sort(key=...): a stable ascending sort. -/
def sortStable (key : FrameVal → Nat) : List FrameVal → List FrameVal
  | [] => []
  | x :: r => insertSorted key x (sortStable key r)

/-- The frame-grouping dictionary of Tag._prepare_frames, keyed by
frameid, keeping per-key insertion order of the frames. -/
def groupByFrameid (frames : List FrameVal) : List (String × List FrameVal) :=
  frames.foldl
    (fun d f =>
      if (d.lookup f.frameid).isSome then
        d.map (fun p => if p.1 == f.frameid then (p.1, p.2 ++ [f]) else p)
      else d ++ [(f.frameid, [f])])
    []

/-- Exception classes caught by an except ValueError clause (TagError and
the unicode codec errors subclass ValueError in errors.py / the standard
library). -/
def isValueErrorFamily : PyExc → Bool
  | .valueError | .tagError | .unicodeEncodeError | .unicodeDecodeError => true
  | _ => false

/-- Tag._prepare_frames: group by frameid, merge duplicates per class
policy, convert every group to the tag's version (dropping groups that
raise IncompatibleFrameError or a ValueError with a warning; any other
exception propagates), flatten, and stable-sort by
self.frame_order.key — which raises AttributeError when frame_order has
been left at its None class default, as stagger.id3 in this tree never
initializes it. -/
def prepareFrames (frameOrder : Option FrameOrder) (version : Nat)
    (frames : List FrameVal) : Except PyExc (List FrameVal × List String) := do
  let d := groupByFrameid frames
  let md ← d.foldlM
    (fun (acc : List (String × List FrameVal) × List String) g => do
      let (merged, w) ← mergeDispatch g.2
      Except.ok (acc.1 ++ [(g.1, merged)], acc.2 ++ w))
    (([], []) : List (String × List FrameVal) × List String)
  let cd ← md.1.foldlM
    (fun (acc : List (String × List FrameVal) × List String) g =>
      match g.2.mapM (fun fr => toVersion fr version) with
      | .ok fs => Except.ok (acc.1 ++ [(g.1, fs)], acc.2)
      | .error .incompatibleFrameError =>
          Except.ok (acc.1, acc.2 ++ ["Skipping incompatible frame " ++ g.1])
      | .error e =>
          if isValueErrorFamily e then
            Except.ok (acc.1, acc.2 ++ ["Skipping invalid frame " ++ g.1])
          else Except.error e)
    ((([], md.2)) : List (String × List FrameVal) × List String)
  let newframes := (cd.1.map (·.2)).flatten
  match frameOrder with
  | Option.none => .error .attributeError
  | some fo => .ok (sortStable fo.key newframes, cd.2)

/-- The encode_fields closure of Frame._to_data: write every framespec
field in order (no embedded spec is optional, so the optional-break of
the source never fires). -/
def encodeFields (f : FrameVal) : Except PyExc (List Nat) :=
  f.cls.framespec.foldlM
    (fun acc sp =>
      match getattrF f sp.name with
      | some v => do
          let d ← specWrite f sp v
          Except.ok (acc ++ d)
      | Option.none => Except.error PyExc.attributeError)
    []

/-- The finally clause of try_preferred_encodings: restore the original
encoding through a validated assignment, then deliver the pending result
or exception; an exception from the restoring assignment itself takes
precedence. -/
def restoreThen (f : FrameVal) (orig : FieldVal) (r : Except PyExc (List Nat)) :
    Except PyExc (List Nat × FrameVal) :=
  match setattrV f "encoding" orig with
  | .error e => .error e
  | .ok f' =>
      match r with
      | .ok d => .ok (d, f')
      | .error e => .error e

/-- try_preferred_encodings: try codec 0 then codec 1
(EncodedStringSpec.preferred_encodings), swallowing UnicodeEncodeError
and returning the first successful serialization; ValueError when both
fail; the original encoding is restored in every exit path. -/
def tryPreferred (f : FrameVal) : Except PyExc (List Nat × FrameVal) :=
  let orig := (getattrF f "encoding").getD .none
  match setattrV f "encoding" (.int 0) with
  | .error e => restoreThen f orig (.error e)
  | .ok f0 =>
      match encodeFields f0 with
      | .ok d => restoreThen f0 orig (.ok d)
      | .error .unicodeEncodeError =>
          (match setattrV f0 "encoding" (.int 1) with
           | .error e => restoreThen f0 orig (.error e)
           | .ok f1 =>
               match encodeFields f1 with
               | .ok d => restoreThen f1 orig (.ok d)
               | .error .unicodeEncodeError => restoreThen f1 orig (.error .valueError)
               | .error e => restoreThen f1 orig (.error e))
      | .error e => restoreThen f0 orig (.error e)

/-- Frame._to_data: frames without a leading EncodingSpec serialize
directly; with an unset encoding the preferred codecs are tried; with a
set encoding a UnicodeEncodeError triggers the preferred-codec retry.
The result pairs the body bytes with the frame as left by the call (its
recorded encoding restored by the retry path).  The bozo warning is
side-effect-only. -/
def toData (f : FrameVal) : Except PyExc (List Nat × FrameVal) :=
  match f.cls.framespec.head? with
  | some (.encodingSpec _) =>
      match (getattrF f "encoding").getD .none with
      | .none => tryPreferred f
      | _ =>
          match encodeFields f with
          | .ok d => .ok (d, f)
          | .error .unicodeEncodeError => tryPreferred f
          | .error e => .error e
  | _ => (encodeFields f).map (fun d => (d, f))

/-! ## stagger/tags.py: the v2.3 tag framing -/

/-- Python truthiness of an optional flag value. -/
def pyTruthy : Option PyVal → Bool
  | some (.pyBool b) => b
  | some (.pyInt n) => n ≠ 0
  | Option.none => false

/-- Tag23._interpret_frame_flags.  The unknown-format-mask branch and the
unknown-status-mask branch both format the undefined name b into their
messages, so they raise NameError instead of the intended FrameError and
warning; the compressed branch appends its flag and then calls
zlib.decompress with zlib never imported in tags.py, raising NameError;
encryption raises FrameError; grouping consumes the leading group-id
byte. -/
def interpretFrameFlags23 (bflags : Nat) (data : List Nat) :
    Except PyExc (List String × List Nat) := do
  if bflags &&& 0x001F ≠ 0 then throw .nameError
  if bflags &&& 0x0080 ≠ 0 then throw .nameError
  if bflags &&& 0x0040 ≠ 0 then throw .frameError
  let gd ←
    if bflags &&& 0x0020 ≠ 0 then
      match data with
      | [] => Except.error PyExc.indexError
      | b :: r => Except.ok ((["group", "group" ++ toString b], r))
    else Except.ok (([], data))
  let flags := gd.1
    ++ (if bflags &&& 0x8000 ≠ 0 then ["discard_on_tag_alter"] else [])
    ++ (if bflags &&& 0x4000 ≠ 0 then ["discard_on_file_alter"] else [])
    ++ (if bflags &&& 0x2000 ≠ 0 then ["read_only"] else [])
  if bflags &&& 0x1F00 ≠ 0 then throw .nameError
  Except.ok (flags, gd.2)

/-- The exception classes caught by Tag._frame_from_data's except clause
(FrameError, ValueError, EOFError), closed under the subclass
relationships of errors.py and the standard library. -/
def isFrameDecodeCaught : PyExc → Bool
  | .frameError | .incompatibleFrameError | .valueError | .tagError
  | .unicodeEncodeError | .unicodeDecodeError | .eofError => true
  | _ => false

/-- Tag._frame_from_data for a v2.3 tag: interpret the binary flags,
decode against the registered class (unknown T/W/other ids fall back to
the generic text, URL and opaque classes with an unknown flag), and
convert a caught exception into an ErrorFrame — whose construction in
this snapshot itself raises TypeError inside the handler.  The raw body
passed to the ErrorFrame is the local data variable at the point the
exception was raised; since ErrorFrame construction fails before storing
it, the pre-transform body is passed here. -/
def frameFromData23 (frameid : String) (bflags : Nat) (data : List Nat) :
    Except PyExc FrameVal :=
  let attempt : Except PyExc FrameVal := do
    let (flagsL, data') ← interpretFrameFlags23 bflags data
    match knownFrames frameid with
    | some cls => fromData cls frameid data' (some (mkFlags flagsL))
    | Option.none =>
        if frameid.startsWith "T" then
          fromData .textFrame frameid data' (some (mkFlags (flagsL ++ ["unknown"])))
        else if frameid.startsWith "W" then
          fromData .urlFrame frameid data' (some (mkFlags (flagsL ++ ["unknown"])))
        else
          fromData .unknownFrame frameid data' (some (mkFlags (flagsL ++ ["unknown"])))
  match attempt with
  | .ok f => .ok f
  | .error e =>
      if isFrameDecodeCaught e then
        match errorFrameInit frameid data with
        | .ok ef => .ok ef
        | .error e2 => .error e2
      else .error e

/-- The in-memory Tag23 object: header flags, offset and declared size,
the frameid-keyed frame dictionary, and the writing-policy attributes at
their class defaults (frame_order is the None of tags.py, never
initialized elsewhere in this tree). -/
structure Tag23State where
  flags : List String
  offset : Nat
  size : Nat
  frames : List (String × List FrameVal)
  frame_order : Option FrameOrder := Option.none
  padding_max : Option Nat := some 1024
  padding_default : Nat := 128
deriving DecidableEq

/-- fileutil.xread on a positioned byte list. -/
def xread (file : List Nat) (pos n : Nat) : Except PyExc (List Nat × Nat) :=
  if pos + n ≤ file.length then .ok ((file.drop pos).take n, pos + n)
  else .error .eofError

/-- UnsyncReader.read: pull n de-unsynchronised bytes, tracking the
underlying position and the generator's sync state; EOFError when the
underlying file runs out first.  Fuel is the file length plus one: every
step consumes one underlying byte. -/
def unsyncReadGo (file : List Nat) : Nat → Nat → Bool → Nat →
    Except PyExc (List Nat × Nat × Bool)
  | _, pos, sync, 0 => .ok ([], pos, sync)
  | 0, _, _, _ + 1 => .error .assertionError
  | fuel + 1, pos, sync, n + 1 =>
      if pos < file.length then
        let b := file.getD pos 0
        if sync && b == 0 then unsyncReadGo file fuel (pos + 1) false (n + 1)
        else do
          let (bs, pos', sync') ← unsyncReadGo file fuel (pos + 1) (b == 255) n
          .ok (b :: bs, pos', sync')
      else .error .eofError

/-- One read from the frame stream: through the UnsyncReader when the
tag-wide unsynchronisation flag is set, else directly. -/
def readBytes (unsync : Bool) (file : List Nat) (pos : Nat) (sync : Bool) (n : Nat) :
    Except PyExc (List Nat × Nat × Bool) :=
  if unsync then unsyncReadGo file (file.length + 1) pos sync n
  else do
    let (bs, pos') ← xread file pos n
    .ok (bs, pos', sync)

/-- Tag._frames.setdefault(frameid, []).append(frame). -/
def dictAppend (d : List (String × List FrameVal)) (k : String) (f : FrameVal) :
    List (String × List FrameVal) :=
  if (d.lookup k).isSome then
    d.map (fun p => if p.1 == k then (p.1, p.2 ++ [f]) else p)
  else d ++ [(k, [f])]

/-- The frame-stream loop of Tag.read driving Tag23._read_frames: while
the position is inside the declared tag, read a 10-byte frame header
(EOFError propagates), stop at a non-frame-id, read the plain 32-bit
size and the 16-bit flags, read the body, build the frame, append it,
and stop when the position has run past the declared size.  Fuel is the
declared size plus one: every iteration advances by at least ten
bytes. -/
def readFrames23Go (unsync : Bool) (file : List Nat) (offset size : Nat) :
    Nat → Nat → Bool → List (String × List FrameVal) →
    Except PyExc (List (String × List FrameVal))
  | 0, _, _, _ => .error .assertionError
  | fuel + 1, pos, sync, acc =>
      if pos < offset + size then
        match readBytes unsync file pos sync 10 with
        | .error e => .error e
        | .ok (hdr, pos1, sync1) =>
            if !isFrameIdBytes (hdr.take 4) then .ok acc
            else
              let frameid := natsToString (hdr.take 4)
              let fsize := Int8.decode ((hdr.drop 4).take 4)
              let bflags := Int8.decode (hdr.drop 8)
              match readBytes unsync file pos1 sync1 fsize with
              | .error e => .error e
              | .ok (fdata, pos2, sync2) =>
                  match frameFromData23 frameid bflags fdata with
                  | .error e => .error e
                  | .ok frame =>
                      let acc' := dictAppend acc frame.frameid frame
                      if pos2 > offset + size then .ok acc'
                      else readFrames23Go unsync file offset size fuel pos2 sync2 acc'
      else .ok acc

/-- Tag23._read_header at stream offset zero: magic and version check,
header flag bits (unknown 0x1F bits only warn), syncsafe size plus the
ten header bytes.  When the extended-header flag is set the source calls
self.__read_extended_header() without its positional file argument,
raising TypeError. -/
def tag23ReadHeader (file : List Nat) : Except PyExc (List String × Nat) := do
  let (hdr, _) ← xread file 0 10
  if hdr.take 5 ≠ [73, 68, 51, 3, 0] then throw .tagError
  let b5 := hdr.getD 5 0
  let flags := (if b5 &&& 0x80 ≠ 0 then ["unsynchronisation"] else [])
    ++ (if b5 &&& 0x40 ≠ 0 then ["extended_header"] else [])
    ++ (if b5 &&& 0x20 ≠ 0 then ["experimental"] else [])
  let sz ← Syncsafe.decode ((hdr.drop 6).take 4)
  if flags.contains "extended_header" then throw .typeError
  .ok (flags, sz + 10)

/-- Tag23.read on an in-memory byte stream starting at offset zero. -/
def tag23Read (file : List Nat) : Except PyExc Tag23State := do
  let (flags, size) ← tag23ReadHeader file
  let frames ← readFrames23Go (flags.contains "unsynchronisation") file 0 size
    (size + 1) 10 false []
  .ok { flags := flags, offset := 0, size := size, frames := frames }

/-- detect_tag: magic, version and revision checks, syncsafe length plus
header (plus the v2.4 footer), returning the detected major version with
the offset and total length. -/
def detectTag (file : List Nat) : Except PyExc (Nat × Nat × Nat) := do
  if file.length < 10 then throw .eofError
  let header := file.take 10
  if header.take 3 ≠ [73, 68, 51] then throw .noTagError
  let ver := header.getD 3 0
  if !(ver == 2 || ver == 3 || ver == 4) || header.getD 4 0 ≠ 0 then throw .tagError
  let sz ← Syncsafe.decode ((header.drop 6).take 4)
  let length := sz + 10
  let length := if ver == 4 && header.getD 5 0 &&& 0x10 ≠ 0 then length + 10 else length
  .ok (ver, 0, length)

/-- Tag._get_size_with_padding: pad to the desired size when it exceeds
the actual size by at most padding_max (no bound when padding_max is
None); otherwise add padding_default when it is nonzero. -/
def getSizeWithPadding (padding_max : Option Nat) (padding_default : Nat)
    (size_desired : Option Nat) (size_actual : Nat) : Nat :=
  match size_desired with
  | some d =>
      let withinMax : Bool :=
        match padding_max with
        | Option.none => true
        | some m => decide (d - size_actual ≤ m)
      if size_actual < d ∧ withinMax = true then d
      else if padding_default ≠ 0 then size_actual + padding_default
      else size_actual
  | Option.none =>
      if padding_default ≠ 0 then size_actual + padding_default
      else size_actual

/-- Tag23.__encode_one_frame: serialize the fields, then consult the
frame's flags through dict lookups — raising AttributeError on the
set or list containers this snapshot's decode paths store — build the
flag word and group prefix, and assemble the 10-byte frame header with
plain 32-bit size. -/
def encodeOneFrame23 (f : FrameVal) : Except PyExc (List Nat) := do
  let r ← toData f
  let framedata := r.1
  let f := r.2
  let c ← f.flags.get "compressed"
  if pyTruthy c then throw .nameError
  let g ← f.flags.get "group"
  let gi ←
    match g with
    | some (.pyInt n) =>
        if n < 256 then Except.ok ((0x0020, [n]) : Nat × List Nat)
        else Except.error PyExc.valueError
    | _ => Except.ok ((0, []) : Nat × List Nat)
  let dta ← f.flags.get "discard_on_tag_alter"
  let dfa ← f.flags.get "discard_on_file_alter"
  let ro ← f.flags.get "read_only"
  let flagval := gi.1
    ||| (if pyTruthy dta then 0x8000 else 0)
    ||| (if pyTruthy dfa then 0x4000 else 0)
    ||| (if pyTruthy ro then 0x2000 else 0)
  let frameinfo := gi.2
  if !(f.frameid.length == 4 && isFrameIdBytes (strCps f.frameid)) then throw .valueError
  let sz ← Int8.encode (frameinfo.length + framedata.length) 4
  let fl ← Int8.encode flagval 2
  .ok (strCps f.frameid ++ sz ++ fl ++ frameinfo ++ framedata)

/-- The frames of the tag in dictionary order (Tag.values). -/
def tag23Values (t : Tag23State) : List FrameVal :=
  (t.frames.map (·.2)).flatten

/-- Tag23.encode: prepare (merge, convert, sort) the frames, serialize
each, apply whole-tag unsynchronisation when flagged, compute the padded
body size from the size hint, and emit the 10-byte header followed by the
frame data and zero padding. -/
def tag23Encode (t : Tag23State) (size_hint : Option Nat) : Except PyExc (List Nat) := do
  let pf ← prepareFrames t.frame_order 3 (tag23Values t)
  let chunks ← pf.1.mapM encodeOneFrame23
  let framedata := chunks.flatten
  let framedata := if t.flags.contains "unsynchronisation" then Unsync.encode framedata
                   else framedata
  let size := getSizeWithPadding t.padding_max t.padding_default size_hint framedata.length
  let szBytes ← Syncsafe.encode size 4
  .ok ([73, 68, 51, 3, 0]
    ++ [if t.flags.contains "unsynchronisation" then 0x80 else 0x00]
    ++ szBytes ++ framedata
    ++ (if size > framedata.length then List.replicate (size - framedata.length) 0 else []))

/-! ## Claim C1: decode/encode round trip -/

/-- The minimal well-formed ID3v2.3 byte stream of the specification's
end-to-end property: header, then one TIT2 frame holding "Hello" in
Latin-1. -/
def c1MinimalBytes : List Nat :=
  [73, 68, 51, 3, 0, 0, 0, 0, 0, 16]
    ++ [84, 73, 84, 50] ++ [0, 0, 0, 6] ++ [0, 0]
    ++ [0, 72, 101, 108, 108, 111]

/-- The tag that reading c1MinimalBytes was intended to produce, with
padding_max set to 0 as the round-trip property demands. -/
def c1Tag : Tag23State :=
  { flags := [], offset := 0, size := 26,
    frames := [("TIT2",
      [{ cls := .TIT2, frameid := "TIT2", flags := .emptySet,
         fields := [("encoding", .int 0),
                    ("text", .list [.str [72, 101, 108, 108, 111]])] }])],
    padding_max := some 0 }

/-! ## Claim C2: error taxonomy of the read path -/

/-- A well-formed v2.3 tag whose single frame carries the unknown format
flag 0x0010. -/
def c2BadFlagBytes : List Nat :=
  [73, 68, 51, 3, 0, 0, 0, 0, 0, 16]
    ++ [84, 73, 84, 50] ++ [0, 0, 0, 6] ++ [0, 0x10]
    ++ [0, 72, 101, 108, 108, 111]

/-- A well-formed v2.3 tag whose single frame carries the encryption
flag 0x0040. -/
def c2EncryptedBytes : List Nat :=
  [73, 68, 51, 3, 0, 0, 0, 0, 0, 16]
    ++ [84, 73, 84, 50] ++ [0, 0, 0, 6] ++ [0, 0x40]
    ++ [0, 72, 101, 108, 108, 111]

/-- A tag with no frames, no padding and an explicit frame order: its
encoding succeeds and exercises the length formula of
c3_padding_code_bug. -/
def c3EmptyTag : Tag23State :=
  { flags := [], offset := 0, size := 10, frames := [],
    frame_order := some { re_keys := [], frame_keys := [], unknown_key := 0 },
    padding_max := some 0, padding_default := 0 }

/-! ## Claim C4: duplicate-frame merge policy -/

/-- First COMM duplicate. -/
def c4CommA : FrameVal :=
  { cls := .COMM, frameid := "COMM", flags := .emptySet,
    fields := [("encoding", .int 0), ("lang", .str (strCps "eng")),
               ("desc", .str []), ("text", .str (strCps "a"))] }

/-- Second COMM duplicate. -/
def c4CommB : FrameVal :=
  { cls := .COMM, frameid := "COMM", flags := .emptySet,
    fields := [("encoding", .int 0), ("lang", .str (strCps "eng")),
               ("desc", .str []), ("text", .str (strCps "b"))] }

/-- First TIT2 duplicate. -/
def c4Tit2A : FrameVal :=
  { cls := .TIT2, frameid := "TIT2", flags := .emptySet,
    fields := [("encoding", .int 0), ("text", .list [.str (strCps "a")])] }

/-- Second TIT2 duplicate. -/
def c4Tit2B : FrameVal :=
  { cls := .TIT2, frameid := "TIT2", flags := .emptySet,
    fields := [("encoding", .int 0), ("text", .list [.str (strCps "b")])] }

/-- First PCNT duplicate. -/
def c4Pcnt1 : FrameVal :=
  { cls := .PCNT, frameid := "PCNT", flags := .emptySet, fields := [("count", .int 1)] }

/-- Second PCNT duplicate. -/
def c4Pcnt2 : FrameVal :=
  { cls := .PCNT, frameid := "PCNT", flags := .emptySet, fields := [("count", .int 2)] }

/-- A TIT2 frame used to witness c7_to_version. -/
def c7Tit2Frame : FrameVal :=
  { cls := .TIT2, frameid := "TIT2", flags := .emptySet,
    fields := [("encoding", .int 0), ("text", .list [.str (strCps "t")])] }

/-! ## Claim C8: frame ordering -/

/-- The APIC frame of the ordering property. -/
def c8Apic : FrameVal :=
  { cls := .APIC, frameid := "APIC", flags := .emptySet,
    fields := [("encoding", .int 0), ("mime", .str (strCps "image/png")),
               ("type", .int 3), ("desc", .str []), ("data", .bytes [1, 2, 3])] }

/-- The TPE1 frame of the ordering property. -/
def c8Tpe1 : FrameVal :=
  { cls := .TPE1, frameid := "TPE1", flags := .emptySet,
    fields := [("encoding", .int 0), ("text", .list [.str (strCps "tpe1")])] }

/-- The TIT2 frame of the ordering property. -/
def c8Tit2 : FrameVal :=
  { cls := .TIT2, frameid := "TIT2", flags := .emptySet,
    fields := [("encoding", .int 0), ("text", .list [.str (strCps "tit2")])] }

/-- The TXXX frame of the ordering property. -/
def c8Txxx : FrameVal :=
  { cls := .TXXX, frameid := "TXXX", flags := .emptySet,
    fields := [("encoding", .int 0), ("description", .str (strCps "d")),
               ("value", .str (strCps "v"))] }

/-- FrameOrder(TIT2, "T.*", TXXX) as built by the constructor. -/
def c8Order : FrameOrder :=
  { re_keys := [("T.*", 1)], frame_keys := [(.TIT2, 0), (.TXXX, 2)], unknown_key := 3 }

/-- The four-frame tag of the ordering property with the frame order
installed. -/
def c8Tag : Tag23State :=
  { flags := [], offset := 0, size := 10,
    frames := [("APIC", [c8Apic]), ("TPE1", [c8Tpe1]), ("TIT2", [c8Tit2]),
               ("TXXX", [c8Txxx])],
    frame_order := some c8Order }

/-- Every way to insert a frame into a list. -/
def insertsOf (x : FrameVal) : List FrameVal → List (List FrameVal)
  | [] => [[x]]
  | y :: r => (x :: y :: r) :: (insertsOf x r).map (y :: ·)

/-- All permutations of a frame list (computable by the kernel). -/
def permsOf : List FrameVal → List (List FrameVal)
  | [] => [[]]
  | x :: r => ((permsOf r).map (insertsOf x)).flatten

/-! ## Claim C9: string-encoding retry in Frame._to_data -/

/-- A TIT2-shaped text frame with the given recorded encoding field and
text list. -/
def mkTextFrameC9 (enc : FieldVal) (texts : List FieldScalar) : FrameVal :=
  { cls := .TIT2, frameid := "TIT2", flags := .emptySet,
    fields := [("encoding", enc), ("text", .list texts)] }

/-- The frame of the C9 counterexample: Latin-1 selected, text a single
white smiling face (U+263A), not Latin-1 encodable. -/
def c9Frame : FrameVal := mkTextFrameC9 (.int 0) [.str [0x263A]]

/-! ## Theorems -/

/-! ## Proof machinery for the conversion module -/

theorem syncsafeDigitsGo_eq_digits :
    ∀ (fuel i : Nat), i ≤ fuel → syncsafeDigitsGo fuel i = Nat.digits 128 i := by
  intro fuel
  induction fuel with
  | zero =>
    intro i hi
    interval_cases i
    simp [syncsafeDigitsGo]
  | succ n ih =>
    intro i hi
    by_cases h : i = 0
    · simp [syncsafeDigitsGo, h]
    · have hd : i / 128 ≤ n := by
        have : i / 128 < i := Nat.div_lt_self (Nat.pos_of_ne_zero h) (by norm_num)
        omega
      rw [Nat.digits_def' (by norm_num : (1:ℕ) < 128) (Nat.pos_of_ne_zero h)]
      simp [syncsafeDigitsGo, h, ih _ hd]

theorem syncsafeDigits_eq_digits (i : Nat) : syncsafeDigits i = Nat.digits 128 i :=
  syncsafeDigitsGo_eq_digits i i le_rfl

theorem syncsafeDecodeGo_ok (l : List Nat) :
    ∀ v, (∀ b ∈ l, b ≤ 127) →
      syncsafeDecodeGo v l = .ok (l.foldl (fun a b => a * 128 + b) v) := by
  induction l with
  | nil => intro v _; rfl
  | cons b t ih =>
    intro v h
    have hb : b ≤ 127 := h b (by simp)
    simp only [syncsafeDecodeGo, List.foldl_cons]
    rw [if_neg (by omega)]
    exact ih _ (fun x hx => h x (by simp [hx]))

theorem foldr_base128 (l : List Nat) (a : Nat) :
    l.foldr (fun b acc => acc * 128 + b) a = a * 128 ^ l.length + Nat.ofDigits 128 l := by
  induction l with
  | nil => simp [Nat.ofDigits]
  | cons d t ih =>
    simp only [List.foldr_cons, ih, Nat.ofDigits_cons, List.length_cons, pow_succ]
    ring

theorem syncsafeDecodeGo_zeros (k : Nat) (s : List Nat) :
    syncsafeDecodeGo 0 (List.replicate k 0 ++ s) = syncsafeDecodeGo 0 s := by
  induction k with
  | zero => simp
  | succ n ih => simpa [syncsafeDecodeGo, List.replicate_succ] using ih

theorem syncsafe_digits_len_le (x w : Nat) (hx : x < 2 ^ (7 * w)) :
    (Nat.digits 128 x).length ≤ w := by
  by_cases h : x = 0
  · simp [h]
  · rw [Nat.digits_len 128 x (by norm_num) h]
    have hx' : x < 128 ^ w := by
      rw [show (128:ℕ) = 2 ^ 7 by norm_num, ← pow_mul]
      exact hx
    have := Nat.log_lt_of_lt_pow h hx'
    omega

theorem syncsafeDecodeGo_err (d : List Nat) :
    ∀ (v b : Nat), b ∈ d → 127 < b → syncsafeDecodeGo v d = .error .valueError := by
  induction d with
  | nil => simp
  | cons c t ih =>
    intro v b hmem hb
    by_cases hc : 127 < c
    · simp [syncsafeDecodeGo, hc]
    · rcases List.mem_cons.mp hmem with h | h
      · omega
      · simp only [syncsafeDecodeGo]
        rw [if_neg hc]
        exact ih _ b h hb

/-- C5: for every width w greater than 0 and every x below 2 to the 7w,
decoding the syncsafe encoding of x at that width returns x; and decoding
any byte sequence containing a byte above 127 raises ValueError. -/
theorem c5_syncsafe_roundtrip :
    (∀ (w x : Nat), 0 < w → x < 2 ^ (7 * w) →
      (Syncsafe.encode x (w : Int)).bind Syncsafe.decode = .ok x) ∧
    (∀ (d : List Nat) (b : Nat), b ∈ d → 127 < b →
      Syncsafe.decode d = .error .valueError) := by
  constructor
  · intro w x hw hx
    have hwz : (w : Int) ≠ 0 := by
      simp only [ne_eq, Int.natCast_eq_zero]
      omega
    have hlen : (syncsafeDigits x).length ≤ w := by
      rw [syncsafeDigits_eq_digits]
      exact syncsafe_digits_len_le x w hx
    simp only [Syncsafe.encode]
    rw [if_neg hwz]
    rw [if_neg (by
      rintro ⟨-, h2⟩
      simp only [Int.toNat_natCast] at h2
      omega)]
    show Syncsafe.decode _ = _
    simp only [Syncsafe.decode]
    rw [List.reverse_append, List.reverse_replicate, syncsafeDecodeGo_zeros]
    have hb : ∀ b ∈ (syncsafeDigits x).reverse, b ≤ 127 := by
      intro b hbm
      rw [List.mem_reverse, syncsafeDigits_eq_digits] at hbm
      exact Nat.le_of_lt_succ (Nat.digits_lt_base (by norm_num) hbm)
    rw [syncsafeDecodeGo_ok _ 0 hb, List.foldl_reverse, foldr_base128]
    simp [syncsafeDigits_eq_digits, Nat.ofDigits_digits]
  · intro d b hb h127
    exact syncsafeDecodeGo_err d 0 b hb h127

/-- Witness for c5_syncsafe_roundtrip at width 4, value 300, and at the
byte sequence [0, 128]. -/
theorem c5_syncsafe_roundtrip_witness :
    ((0 < 4 ∧ 300 < 2 ^ (7 * 4)) ∧
      (Syncsafe.encode 300 ((4 : Nat) : Int)).bind Syncsafe.decode = .ok 300) ∧
    ((128 ∈ [0, 128] ∧ 127 < 128) ∧
      Syncsafe.decode [0, 128] = .error .valueError) :=
  ⟨⟨⟨by decide, by decide⟩, c5_syncsafe_roundtrip.1 4 300 (by decide) (by decide)⟩,
   ⟨⟨by decide, by decide⟩, c5_syncsafe_roundtrip.2 [0, 128] 128 (by decide) (by decide)⟩⟩

/-! ## Unsynchronisation proofs -/

theorem unsync_roundtrip_gen :
    ∀ (d : List Nat) (s : Bool), unsyncGenDecode s (unsyncGenEncode s d) = d := by
  intro d
  induction d with
  | nil => intro s; cases s <;> rfl
  | cons b t ih =>
    intro s
    cases s with
    | false =>
      simp only [unsyncGenEncode, Bool.false_and, if_false, Bool.false_eq_true]
      simp only [unsyncGenDecode, Bool.false_and, Bool.false_eq_true, if_false]
      rw [ih]
    | true =>
      by_cases hb : (b == 0 || b &&& 224 != 0) = true
      · simp only [unsyncGenEncode, Bool.true_and, hb, if_true]
        simp only [unsyncGenDecode]
        norm_num
        rw [ih]
      · simp only [unsyncGenEncode, Bool.true_and, hb, if_false, Bool.false_eq_true]
        have hb0 : (b == 0) = false := by
          revert hb; cases h : (b == 0) <;> simp
        simp only [unsyncGenDecode, Bool.true_and, hb0, Bool.false_eq_true, if_false]
        rw [ih]

theorem unsyncGenEncode_append (w : List Nat) :
    ∀ (u : List Nat) (s : Bool),
      ∃ p, unsyncGenEncode s (u ++ w) = p ++ unsyncGenEncode (unsyncEndSync s u) w := by
  intro u
  induction u with
  | nil => intro s; exact ⟨[], rfl⟩
  | cons b t ih =>
    intro s
    obtain ⟨p, hp⟩ := ih (b == 255)
    by_cases h : (s && (b == 0 || b &&& 224 != 0)) = true
    · refine ⟨0 :: b :: p, ?_⟩
      simp [unsyncGenEncode, h, hp, unsyncEndSync]
    · refine ⟨b :: p, ?_⟩
      simp only [List.cons_append, unsyncGenEncode, h, if_false, Bool.false_eq_true]
      simp [hp, unsyncEndSync]

theorem byte_and224_ne_of_ge : ∀ b : Nat, b < 256 → 224 ≤ b → b &&& 224 ≠ 0 := by decide

theorem byte_and224_eq_lt32 : ∀ b : Nat, b < 256 → b &&& 224 = 0 → b < 32 := by decide

/-- C6: de-unsynchronising an unsynchronised byte sequence gives back the
original sequence; the encoder inserts a zero byte after every 0xFF that
is followed by 0x00 or a byte at least 0xE0, and after a trailing 0xFF. -/
theorem c6_unsync_roundtrip :
    (∀ d : List Nat, (∀ b ∈ d, b < 256) → Unsync.decode (Unsync.encode d) = d) ∧
    (∀ (u v : List Nat) (b : Nat), b = 0 ∨ (224 ≤ b ∧ b < 256) →
      ∃ p q, Unsync.encode (u ++ 255 :: b :: v) = p ++ 255 :: 0 :: b :: q) ∧
    (∀ u : List Nat, ∃ p, Unsync.encode (u ++ [255]) = p ++ [255, 0]) := by
  refine ⟨fun d _ => unsync_roundtrip_gen d false, fun u v b hb => ?_, fun u => ?_⟩
  · obtain ⟨p, hp⟩ := unsyncGenEncode_append (255 :: b :: v) u false
    have htrig : (b == 0 || b &&& 224 != 0) = true := by
      rcases hb with h | ⟨h1, h2⟩
      · simp [h]
      · simp [byte_and224_ne_of_ge b h2 h1]
    have hx : unsyncGenEncode true (b :: v) = 0 :: b :: unsyncGenEncode (b == 255) v := by
      simp [unsyncGenEncode, htrig]
    set t := unsyncEndSync false u with hts
    cases ht : t with
    | true =>
      refine ⟨p ++ [0], unsyncGenEncode (b == 255) v, ?_⟩
      rw [Unsync.encode, hp, ht]
      simp [unsyncGenEncode, hx, htrig]
    | false =>
      refine ⟨p, unsyncGenEncode (b == 255) v, ?_⟩
      rw [Unsync.encode, hp, ht]
      simp [unsyncGenEncode, hx, htrig]
  · obtain ⟨p, hp⟩ := unsyncGenEncode_append [255] u false
    set t := unsyncEndSync false u with hts
    cases ht : t with
    | true =>
      refine ⟨p ++ [0], ?_⟩
      rw [Unsync.encode, hp, ht]
      simp [unsyncGenEncode]
    | false =>
      refine ⟨p, ?_⟩
      rw [Unsync.encode, hp, ht]
      simp [unsyncGenEncode]

/-- Witness for c6_unsync_roundtrip at [255, 0, 255], at an interior
0xFF 0xE0 pair, and at a trailing 0xFF. -/
theorem c6_unsync_roundtrip_witness :
    ((∀ b ∈ [255, 0, 255], b < 256) ∧
      Unsync.decode (Unsync.encode [255, 0, 255]) = [255, 0, 255]) ∧
    ((224 = 0 ∨ (224 ≤ 224 ∧ 224 < 256)) ∧
      ∃ p q, Unsync.encode ([1] ++ 255 :: 224 :: [7]) = p ++ 255 :: 0 :: 224 :: q) ∧
    (∃ p, Unsync.encode ([2] ++ [255]) = p ++ [255, 0]) :=
  ⟨⟨by decide, c6_unsync_roundtrip.1 [255, 0, 255] (by decide)⟩,
   ⟨Or.inr ⟨by decide, by decide⟩,
    c6_unsync_roundtrip.2.1 [1] [7] 224 (Or.inr ⟨by decide, by decide⟩)⟩,
   c6_unsync_roundtrip.2.2 [2]⟩

theorem falseSyncFree_cons (a : Nat) (l : List Nat) :
    falseSyncFree (a :: l) =
      ((match l.head? with
        | some c => (!(a == 255) || decide (c < 224))
        | none => true) && falseSyncFree l) := by
  cases l <;> simp [falseSyncFree]

theorem unsyncGenEncode_ne_nil (s : Bool) (b : Nat) (t : List Nat) :
    unsyncGenEncode s (b :: t) ≠ [] := by
  by_cases h : (s && (b == 0 || b &&& 224 != 0)) = true <;> simp [unsyncGenEncode, h]

theorem unsyncGenEncode_head_true (d : List Nat) (hd : ∀ b ∈ d, b < 256) :
    ∀ c, (unsyncGenEncode true d).head? = some c → c < 224 := by
  cases d with
  | nil =>
    intro c hc
    simp [unsyncGenEncode] at hc
    omega
  | cons b t =>
    intro c hc
    by_cases h : (true && (b == 0 || b &&& 224 != 0)) = true
    · simp [unsyncGenEncode, h] at hc
      omega
    · simp only [unsyncGenEncode, h, if_false, Bool.false_eq_true, List.head?_cons,
        Option.some.injEq] at hc
      have h256 : b < 256 := hd b (by simp)
      have hand : b &&& 224 = 0 := by
        revert h
        cases hx : (b == 0) <;> cases hy : (b &&& 224 != 0) <;> simp_all
      have := byte_and224_eq_lt32 b h256 hand
      omega

theorem unsyncGenEncode_safe :
    ∀ (d : List Nat) (s : Bool), (∀ b ∈ d, b < 256) →
      falseSyncFree (unsyncGenEncode s d) = true ∧
      (unsyncGenEncode s d).getLast? ≠ some 255 := by
  intro d
  induction d with
  | nil =>
    intro s _
    cases s <;> simp [unsyncGenEncode, falseSyncFree]
  | cons b t ih =>
    intro s hbytes
    have hb : b < 256 := hbytes b (by simp)
    have htb : ∀ x ∈ t, x < 256 := fun x hx => hbytes x (by simp [hx])
    obtain ⟨ih1, ih2⟩ := ih (b == 255) htb
    have hmain : falseSyncFree (b :: unsyncGenEncode (b == 255) t) = true := by
      rw [falseSyncFree_cons, ih1, Bool.and_true]
      cases hbe : (b == 255) with
      | false => cases hh : (unsyncGenEncode false t).head? <;> simp [hbe]
      | true =>
        cases hh : (unsyncGenEncode true t).head? with
        | none => simp
        | some c =>
          have := unsyncGenEncode_head_true t htb c hh
          simp [this]
    have hlast : (b :: unsyncGenEncode (b == 255) t).getLast? ≠ some 255 := by
      cases ht : t with
      | nil =>
        cases hbe : (b == 255) with
        | false =>
          simp only [unsyncGenEncode]
          simp only [hbe, Bool.false_eq_true, if_false, List.getLast?_singleton]
          simp only [ne_eq, Option.some.injEq]
          intro h
          subst h
          simp at hbe
        | true => simp [unsyncGenEncode, hbe]
      | cons x r =>
        have hne := unsyncGenEncode_ne_nil (b == 255) x r
        cases hE : unsyncGenEncode (b == 255) (x :: r) with
        | nil => exact absurd hE hne
        | cons y ys =>
          rw [List.getLast?_cons_cons]
          rw [ht, hE] at ih2
          exact ih2
    by_cases hins : (s && (b == 0 || b &&& 224 != 0)) = true
    · constructor
      · simp only [unsyncGenEncode, hins, if_true]
        rw [falseSyncFree_cons]
        simp only [List.head?_cons]
        rw [hmain]
        simp
      · simp only [unsyncGenEncode, hins, if_true]
        have : (0 :: b :: unsyncGenEncode (b == 255) t) = [0] ++ b :: unsyncGenEncode (b == 255) t := rfl
        rw [this, List.getLast?_append_cons]
        exact hlast
    · constructor
      · simp only [unsyncGenEncode, hins, if_false, Bool.false_eq_true]
        exact hmain
      · simp only [unsyncGenEncode, hins, if_false, Bool.false_eq_true]
        exact hlast

/-- C10: the output of Unsync.encode on a byte sequence contains no 0xFF
byte immediately followed by a byte at least 0xE0, and does not end in a
0xFF byte. -/
theorem c10_no_false_sync :
    ∀ d : List Nat, (∀ b ∈ d, b < 256) →
      falseSyncFree (Unsync.encode d) = true ∧
      (Unsync.encode d).getLast? ≠ some 255 :=
  fun d h => unsyncGenEncode_safe d false h

/-- Witness for c10_no_false_sync at [255, 224, 0, 255]. -/
theorem c10_no_false_sync_witness :
    (∀ b ∈ [255, 224, 0, 255], b < 256) ∧
    falseSyncFree (Unsync.encode [255, 224, 0, 255]) = true ∧
    (Unsync.encode [255, 224, 0, 255]).getLast? ≠ some 255 :=
  ⟨by decide, c10_no_false_sync [255, 224, 0, 255] (by decide)⟩

/-- C1: the decode-encode round trip fails twice over on this snapshot:
reading the minimal well-formed v2.3 tag raises TypeError (Frame.__init__
assigns None to each field, and __setattr__ validates the None), so no
tag T is ever obtained by decoding; and encoding the intended tag raises
AttributeError (Tag.frame_order is left at its None class default, so
_prepare_frames dereferences None.key). -/
theorem c1_roundtrip_code_bug :
    tag23Read c1MinimalBytes = .error .typeError ∧
    tag23Encode c1Tag (some 0) = .error .attributeError := by
  constructor <;> decide

/-- C2: exceptions raised during flag interpretation and frame decoding
do escape to the caller instead of becoming error frames: an unknown
format flag raises NameError (the FrameError message formats the
undefined name b) which the except clause does not catch; an encrypted
frame raises the intended FrameError, which is caught — but constructing
the ErrorFrame placeholder itself raises TypeError out of the handler;
and a stream shorter than a header makes detect_tag raise EOFError,
which is neither NoTagError nor TagError.  Neither NameError nor
TypeError is in the caught exception set. -/
theorem c2_error_handling_code_bug :
    tag23Read c2BadFlagBytes = .error .nameError ∧
    tag23Read c2EncryptedBytes = .error .typeError ∧
    detectTag [] = .error .eofError ∧
    isFrameDecodeCaught .nameError = false ∧
    isFrameDecodeCaught .typeError = false := by
  refine ⟨by decide, by decide, by decide, rfl, rfl⟩

/-! ## Claim C3: padding policy -/

theorem syncsafeEncode_width4_length (i : Nat) (l : List Nat)
    (h : Syncsafe.encode i 4 = .ok l) : l.length = 4 := by
  unfold Syncsafe.encode at h
  rw [if_neg (by norm_num)] at h
  by_cases hl : (0 : Int) < 4 ∧ (4 : Int).toNat < (syncsafeDigits i).length
  · rw [if_pos hl] at h
    cases h
  · rw [if_neg hl] at h
    cases h
    have hle : (syncsafeDigits i).length ≤ 4 := by
      rcases not_and_or.mp hl with h1 | h2
      · exact absurd (by norm_num) h1
      · simpa using h2
    simp
    omega

theorem getSizeWithPadding_ge (pm : Option Nat) (pd : Nat) (hint : Option Nat)
    (actual : Nat) : actual ≤ getSizeWithPadding pm pd hint actual := by
  unfold getSizeWithPadding
  cases hint with
  | none =>
    dsimp only
    split <;> omega
  | some d =>
    dsimp only
    split
    · omega
    · split <;> omega

theorem tag23Encode_ok_length (t : Tag23State) (hint : Option Nat) (out : List Nat)
    (h : tag23Encode t hint = .ok out) :
    ∃ bodyLen,
      out.length = 10 + getSizeWithPadding t.padding_max t.padding_default hint bodyLen := by
  unfold tag23Encode at h
  cases hpf : prepareFrames t.frame_order 3 (tag23Values t) with
  | error e => rw [hpf] at h; simp [Bind.bind, Except.bind] at h
  | ok pf =>
    rw [hpf] at h
    simp only [Bind.bind, Except.bind] at h
    cases hch : pf.1.mapM encodeOneFrame23 with
    | error e => rw [hch] at h; simp at h
    | ok chunks =>
      rw [hch] at h
      simp only at h
      set framedata :=
        if t.flags.contains "unsynchronisation" then Unsync.encode chunks.flatten
        else chunks.flatten with hfd
      set size := getSizeWithPadding t.padding_max t.padding_default hint framedata.length
        with hsize
      cases hsz : Syncsafe.encode size 4 with
      | error e => rw [hsz] at h; simp at h
      | ok szBytes =>
        rw [hsz] at h
        simp only [Except.ok.injEq] at h
        subst h
        refine ⟨framedata.length, ?_⟩
        have h4 := syncsafeEncode_width4_length size szBytes hsz
        have hge : framedata.length ≤ size := getSizeWithPadding_ge _ _ _ _
        by_cases hgt : size > framedata.length
        · simp only [if_pos hgt]
          simp [h4]
          omega
        · simp only [if_neg hgt]
          simp [h4]
          omega

/-- C3: the padded output length of Tag23.encode is ten header bytes on
top of the padded body computed by _get_size_with_padding from the body
length alone.  For a tag whose exact encoded length is 300 bytes (a
290-byte body), padding_max = 1000 and size hint 500 give a 510-byte
buffer, not the 500 the claim and the repo's own padding test assert;
padding_max = 0 still adds the default 128 bytes of padding, giving 428
rather than 300; exact sizing additionally requires padding_default = 0. -/
theorem c3_padding_code_bug :
    (∀ (t : Tag23State) (hint : Option Nat) (out : List Nat),
      tag23Encode t hint = .ok out →
      ∃ bodyLen,
        out.length = 10 + getSizeWithPadding t.padding_max t.padding_default hint bodyLen) ∧
    10 + getSizeWithPadding (some 1000) 128 (some 500) 290 = 510 ∧
    10 + getSizeWithPadding (some 0) 128 (some 500) 290 = 428 ∧
    10 + getSizeWithPadding (some 0) 0 (some 500) 290 = 300 ∧
    10 + getSizeWithPadding (some 0) 0 (some 5000) 290 = 300 :=
  ⟨tag23Encode_ok_length, by decide, by decide, by decide, by decide⟩

/-- Witness for c3_padding_code_bug: a successful concrete encode whose
length the formula predicts. -/
theorem c3_padding_code_bug_witness :
    tag23Encode c3EmptyTag (some 500) = .ok [73, 68, 51, 3, 0, 0, 0, 0, 0, 0] ∧
    (∃ bodyLen,
      (10 : Nat) = 10 + getSizeWithPadding c3EmptyTag.padding_max
        c3EmptyTag.padding_default (some 500) bodyLen) :=
  ⟨by decide,
   by
    have := c3_padding_code_bug.1 c3EmptyTag (some 500)
      [73, 68, 51, 3, 0, 0, 0, 0, 0, 0] (by decide)
    simpa using this⟩

/-- C4 counterexample: merging two TIT2 frames neither keeps only the
later one nor emits a duplicate warning — TIT2 inherits
TextFrame._merge, which builds a concatenation frame, and that
construction raises TypeError in this snapshot. -/
theorem c4_tit2_merge_counterexample :
    mergeDispatch [c4Tit2A, c4Tit2B] = .error .typeError ∧
    mergeDispatch [c4Tit2A, c4Tit2B] ≠ .ok ([c4Tit2B], []) ∧
    mergeDispatch [c4Tit2A, c4Tit2B] ≠
      .ok ([c4Tit2B], ["Frame TIT2 duplicated, only the last instance is kept"]) := by
  refine ⟨by decide, by decide, by decide⟩

/-- C4 amended: two COMM duplicates are both kept; two TIT2 duplicates
make TextFrame._merge raise TypeError (the concatenation frame's
construction validates its defaulted None encoding), so no frame and no
warning results; the keep-last-and-warn policy applies to non-text
duplicates-disallowed frames such as PCNT. -/
theorem c4_merge_amended :
    mergeDispatch [c4CommA, c4CommB] = .ok ([c4CommA, c4CommB], []) ∧
    mergeDispatch [c4Tit2A, c4Tit2B] = .error .typeError ∧
    mergeDispatch [c4Pcnt1, c4Pcnt2] =
      .ok ([c4Pcnt2], ["Frame PCNT duplicated, only the last instance is kept"]) := by
  refine ⟨by decide, by decide, by decide⟩

/-! ## Claim C7: version conversion -/

/-- C7: _to_version returns the frame itself whenever its class is valid
for the target version (including the APIC and PIC overrides), and a
version-4-only SIGN frame refuses conversion to version 3 with
IncompatibleFrameError. -/
theorem c7_to_version :
    (∀ (f : FrameVal) (v : Nat), f.cls.inVersion v = true → toVersion f v = .ok f) ∧
    toVersion { cls := .SIGN, frameid := "SIGN", flags := .emptySet,
                fields := [("group", .int 0), ("data", .bytes [])] } 3 =
      .error .incompatibleFrameError := by
  constructor
  · rintro ⟨cls, fid, fl, fds⟩ v h
    cases cls <;>
      simp_all [toVersion, apicToVersion, picToVersion, frameToVersion,
        FrameCls.inVersion, FrameCls.versions]
  · decide

/-- Witness for c7_to_version at a TIT2 frame converted to version 3. -/
theorem c7_to_version_witness :
    c7Tit2Frame.cls.inVersion 3 = true ∧ toVersion c7Tit2Frame 3 = .ok c7Tit2Frame :=
  ⟨by decide, c7_to_version.1 c7Tit2Frame 3 (by decide)⟩

/-- C8: FrameOrder(TIT2, "T.*", TXXX) orders the four frames
TIT2, TPE1, TXXX, APIC — whatever order the tag held them in — at the
merge-convert-sort stage of encoding; the byte-serialization that
follows then raises AttributeError, because the frames' flags containers
(sets) lack the dict get method __encode_one_frame calls. -/
theorem c8_frame_order_code_bug :
    mkFrameOrder [.cls .TIT2, .re "T.*", .cls .TXXX] = .ok c8Order ∧
    (∀ l ∈ permsOf [c8Apic, c8Tpe1, c8Tit2, c8Txxx],
      prepareFrames (some c8Order) 3 l = .ok ([c8Tit2, c8Tpe1, c8Txxx, c8Apic], [])) ∧
    tag23Encode c8Tag Option.none = .error .attributeError := by
  refine ⟨by decide, by decide, by decide⟩

/-- Witness for c8_frame_order_code_bug at the in-file frame order. -/
theorem c8_frame_order_code_bug_witness :
    [c8Apic, c8Tpe1, c8Tit2, c8Txxx] ∈ permsOf [c8Apic, c8Tpe1, c8Tit2, c8Txxx] ∧
    prepareFrames (some c8Order) 3 [c8Apic, c8Tpe1, c8Tit2, c8Txxx] =
      .ok ([c8Tit2, c8Tpe1, c8Txxx, c8Apic], []) :=
  ⟨by decide,
   c8_frame_order_code_bug.2.1 [c8Apic, c8Tpe1, c8Tit2, c8Txxx] (by decide)⟩

theorem toData_mkText (e : Nat) (texts : List FieldScalar) :
    toData (mkTextFrameC9 (.int e) texts) =
      match encodeFields (mkTextFrameC9 (.int e) texts) with
      | .ok d => .ok (d, mkTextFrameC9 (.int e) texts)
      | .error .unicodeEncodeError => tryPreferred (mkTextFrameC9 (.int e) texts)
      | .error e' => .error e' := rfl

theorem tryPreferred_mkText0 (texts : List FieldScalar) :
    tryPreferred (mkTextFrameC9 (.int 0) texts) =
      match encodeFields (mkTextFrameC9 (.int 0) texts) with
      | .ok d => .ok (d, mkTextFrameC9 (.int 0) texts)
      | .error .unicodeEncodeError =>
          (match encodeFields (mkTextFrameC9 (.int 1) texts) with
           | .ok d => .ok (d, mkTextFrameC9 (.int 0) texts)
           | .error .unicodeEncodeError => .error .valueError
           | .error e => .error e)
      | .error e => .error e := rfl

/-- C9 amended: with a set encoding that serializes cleanly, _to_data
emits those bytes and leaves the frame alone; when the selected codec
fails with UnicodeEncodeError, the preferred codecs (Latin-1 then
UTF-16) are retried and the first success is emitted — but the frame's
recorded encoding field is restored to its original value by the finally
clause, not left at the succeeding codec; when both preferred codecs
fail, ValueError is raised. -/
theorem c9_to_data_amended :
    (∀ (texts : List FieldScalar) (e : Nat) (d : List Nat),
      encodeFields (mkTextFrameC9 (.int e) texts) = .ok d →
      toData (mkTextFrameC9 (.int e) texts) = .ok (d, mkTextFrameC9 (.int e) texts)) ∧
    (∀ (texts : List FieldScalar) (d : List Nat),
      encodeFields (mkTextFrameC9 (.int 0) texts) = .error .unicodeEncodeError →
      encodeFields (mkTextFrameC9 (.int 1) texts) = .ok d →
      toData (mkTextFrameC9 (.int 0) texts) = .ok (d, mkTextFrameC9 (.int 0) texts)) ∧
    (∀ texts : List FieldScalar,
      encodeFields (mkTextFrameC9 (.int 0) texts) = .error .unicodeEncodeError →
      encodeFields (mkTextFrameC9 (.int 1) texts) = .error .unicodeEncodeError →
      toData (mkTextFrameC9 (.int 0) texts) = .error .valueError) := by
  refine ⟨?_, ?_, ?_⟩
  · intro texts e d h
    rw [toData_mkText, h]
  · intro texts d h0 h1
    rw [toData_mkText, h0, tryPreferred_mkText0, h0, h1]
  · intro texts h0 h1
    rw [toData_mkText, h0, tryPreferred_mkText0, h0, h1]

/-- C9 counterexample: the retry emits the body under UTF-16 (the
leading encoding byte of the output is 1, followed by the byte order
mark), yet the frame's recorded encoding field afterwards is still 0,
not the succeeding codec 1 the claim asserts. -/
theorem c9_encoding_swap_counterexample :
    toData c9Frame = .ok ([1, 255, 254, 58, 38, 0, 0], c9Frame) ∧
    getattrF c9Frame "encoding" = some (.int 0) ∧
    (some (FieldVal.int 0) ≠ some (FieldVal.int 1)) := by
  refine ⟨by decide, by decide, by decide⟩

/-- Witness for c9_to_data_amended at a clean Latin-1 text, at the
U+263A retry, and at a lone-surrogate text no codec accepts. -/
theorem c9_to_data_amended_witness :
    (encodeFields (mkTextFrameC9 (.int 0) [.str [72]]) = .ok [0, 72, 0] ∧
      toData (mkTextFrameC9 (.int 0) [.str [72]]) =
        .ok ([0, 72, 0], mkTextFrameC9 (.int 0) [.str [72]])) ∧
    (encodeFields (mkTextFrameC9 (.int 0) [.str [0x263A]]) = .error .unicodeEncodeError ∧
      encodeFields (mkTextFrameC9 (.int 1) [.str [0x263A]]) =
        .ok [1, 255, 254, 58, 38, 0, 0] ∧
      toData (mkTextFrameC9 (.int 0) [.str [0x263A]]) =
        .ok ([1, 255, 254, 58, 38, 0, 0], mkTextFrameC9 (.int 0) [.str [0x263A]])) ∧
    (encodeFields (mkTextFrameC9 (.int 0) [.str [0xD800]]) = .error .unicodeEncodeError ∧
      encodeFields (mkTextFrameC9 (.int 1) [.str [0xD800]]) = .error .unicodeEncodeError ∧
      toData (mkTextFrameC9 (.int 0) [.str [0xD800]]) = .error .valueError) :=
  ⟨⟨by decide, c9_to_data_amended.1 [.str [72]] 0 [0, 72, 0] (by decide)⟩,
   ⟨by decide, by decide,
    c9_to_data_amended.2.1 [.str [0x263A]] [1, 255, 254, 58, 38, 0, 0]
      (by decide) (by decide)⟩,
   ⟨by decide, by decide,
    c9_to_data_amended.2.2 [.str [0xD800]] (by decide) (by decide)⟩⟩
